import Mathlib

/-
  Verification development for the TapTun L2/L3 translator.

  The repository ships the C FFI surface (src/include/taptun_ffi.h), an Android
  JNI wrapper (src/examples/android/cpp/jni_wrapper.cpp with its header
  zigtaptun_android.h), and an iOS bridging header.  The translator engine and
  the frame codec themselves are declared by taptun_ffi.h but their
  implementation is not part of the source tree, so those components are
  modelled from the specification (each such definition is marked
  "Modelled from the spec:").  The JNI wrapper functions are embedded directly
  from jni_wrapper.cpp.

  Bytes are modelled as Nat (well-formed frames keep them below 256), buffers
  as List Nat, and the caller's output buffer as a capacity argument: a
  function that would write bytes returns them in its result, and an error
  result carries no bytes at all, matching the all-or-nothing write discipline
  of the spec.
-/

namespace TapTun

/-- Modelled from the spec: a 6-byte hardware (MAC) address (spec section 3). -/
structure Mac where
  b0 : Nat
  b1 : Nat
  b2 : Nat
  b3 : Nat
  b4 : Nat
  b5 : Nat
deriving DecidableEq, Repr

/-- Modelled from the spec: a 4-byte IPv4 address (spec section 3). -/
structure IPv4 where
  a0 : Nat
  a1 : Nat
  a2 : Nat
  a3 : Nat
deriving DecidableEq, Repr

/-- Serialize a MAC address to its 6 wire bytes. -/
def Mac.toBytes (m : Mac) : List Nat :=
  [m.b0, m.b1, m.b2, m.b3, m.b4, m.b5]

/-- Serialize an IPv4 address to its 4 wire bytes. -/
def IPv4.toBytes (ip : IPv4) : List Nat :=
  [ip.a0, ip.a1, ip.a2, ip.a3]

/-- Read the 6 bytes starting at index `i` as a MAC address (0 past the end). -/
def macAt (bs : List Nat) (i : Nat) : Mac :=
  ⟨bs.getD i 0, bs.getD (i + 1) 0, bs.getD (i + 2) 0,
   bs.getD (i + 3) 0, bs.getD (i + 4) 0, bs.getD (i + 5) 0⟩

/-- Read the 4 bytes starting at index `i` as an IPv4 address (0 past the end). -/
def ipAt (bs : List Nat) (i : Nat) : IPv4 :=
  ⟨bs.getD i 0, bs.getD (i + 1) 0, bs.getD (i + 2) 0, bs.getD (i + 3) 0⟩

/-- Read the big-endian 16-bit field at index `i`. -/
def be16At (bs : List Nat) (i : Nat) : Nat :=
  256 * bs.getD i 0 + bs.getD (i + 1) 0

/-- Ethertype of ARP frames (0x0806). -/
def etherTypeArp : Nat := 0x0806

/-- Ethertype of IPv4 frames (0x0800). -/
def etherTypeIPv4 : Nat := 0x0800

/-- Ethertype of IPv6 frames (0x86DD). -/
def etherTypeIPv6 : Nat := 0x86DD

/-- Modelled from the spec: result of `parse_ethernet` (spec section 4.1) —
destination MAC, source MAC, ethertype and the payload after the fixed
14-byte header. -/
structure EthFrame where
  dst_mac : Mac
  src_mac : Mac
  ethertype : Nat
  payload : List Nat
deriving DecidableEq, Repr

/-- Modelled from the spec: `parse_ethernet` of the frame codec, absent from
src/. Fails when the buffer is shorter than the fixed 14-byte Ethernet
header; otherwise splits dst MAC (6B), src MAC (6B), ethertype (2B, network
byte order) and payload (spec sections 4.1 and 6). -/
def parse_ethernet (bytes : List Nat) : Option EthFrame :=
  if bytes.length < 14 then none
  else some ⟨macAt bytes 0, macAt bytes 6, be16At bytes 12, bytes.drop 14⟩

/-- ARP operation code for a request. -/
def arpOpRequest : Nat := 1

/-- ARP operation code for a reply. -/
def arpOpReply : Nat := 2

/-- Modelled from the spec: a decoded ARP message (spec sections 4.1 and 6). -/
structure ArpMessage where
  op : Nat
  sender_mac : Mac
  sender_ip : IPv4
  target_mac : Mac
  target_ip : IPv4
deriving DecidableEq, Repr

/-- Modelled from the spec: `parse_arp` of the frame codec, absent from src/.
Fails when the payload is shorter than the fixed 28-byte ARP body for
IPv4-over-Ethernet, or when the hardware/protocol type fields do not match
Ethernet (1) / IPv4 (0x0800) (spec sections 4.1 and 6). -/
def parse_arp (payload : List Nat) : Option ArpMessage :=
  if payload.length < 28 then none
  else if be16At payload 0 ≠ 1 then none
  else if be16At payload 2 ≠ etherTypeIPv4 then none
  else some ⟨be16At payload 6, macAt payload 8, ipAt payload 14,
             macAt payload 18, ipAt payload 24⟩

/-- Modelled from the spec: `build_ethernet_header` of the frame codec, absent
from src/. Produces the 14 header bytes dst MAC | src MAC | ethertype in
network byte order (spec sections 4.1 and 6). -/
def build_ethernet_header (dst src : Mac) (ethertype : Nat) : List Nat :=
  dst.toBytes ++ src.toBytes ++ [ethertype / 256 % 256, ethertype % 256]

/-- Modelled from the spec: `build_arp_reply` of the frame codec, absent from
src/. Produces a complete Ethernet+ARP reply frame of exactly the protocol
minimum size: 14-byte Ethernet header (to the target, from the sender,
ethertype ARP) followed by the 28-byte ARP body with hw type 1, proto type
0x0800, hw len 6, proto len 4, operation reply (spec sections 4.1 and 6). -/
def build_arp_reply (sender_mac : Mac) (sender_ip : IPv4)
    (target_mac : Mac) (target_ip : IPv4) : List Nat :=
  build_ethernet_header target_mac sender_mac etherTypeArp ++
    [0, 1, 8, 0, 6, 4, 0, 2] ++
    sender_mac.toBytes ++ sender_ip.toBytes ++
    target_mac.toBytes ++ target_ip.toBytes

/-- Modelled from the spec: the error taxonomy of spec section 7 restricted to
the errors the translator engine itself can produce. -/
inductive TapTunError where
  | malformedFrame
  | malformedArp
  | bufferTooSmall
  | deviceNotActive
  | unknown
deriving DecidableEq, Repr

/-- FFI integer encoding of an error, after taptun_ffi.h: -2 for buffer too
small, -1 for every other error. -/
def TapTunError.ffiCode : TapTunError → Int
  | .bufferTooSmall => -2
  | _ => -1

/-- Modelled from the spec: the translator state of spec section 3 — our MAC
(fixed at construction), optional our IP and gateway IP, the at-most-once
learned gateway MAC, the three statistics counters and the bounded FIFO queue
of generated ARP reply frames. -/
structure Translator where
  our_mac : Mac
  our_ip : Option IPv4
  gateway_mac : Option Mac
  gateway_ip : Option IPv4
  l2_to_l3 : Nat
  l3_to_l2 : Nat
  arp_handled : Nat
  arp_reply_queue : List (List Nat)
deriving DecidableEq, Repr

/-- Modelled from the spec: the fixed bound of the ARP reply queue. The spec
(section 4.4) mandates a small implementation-chosen constant in the 8-16
range; this model fixes 16. -/
def arpQueueCapacity : Nat := 16

/-- Modelled from the spec: a fresh translator as created with `our_mac` —
nothing configured, zero counters, empty reply queue (spec section 3). -/
def mkTranslator (mac : Mac) : Translator :=
  ⟨mac, none, none, none, 0, 0, 0, []⟩

/-- Modelled from the spec: enqueue a generated ARP reply, silently dropping
the newest frame when the queue is at capacity (spec sections 4.2 and 4.4,
reject-newest backpressure policy). -/
def Translator.pushArpReply (t : Translator) (frame : List Nat) : Translator :=
  if t.arp_reply_queue.length < arpQueueCapacity then
    { t with arp_reply_queue := t.arp_reply_queue ++ [frame] }
  else t

/-- Modelled from the spec: the ARP interception of `ethernet_to_ip` (spec
section 4.2). A request targeting our configured IP synthesizes a reply and
enqueues it; otherwise, while `gateway_mac` is unset, the sender MAC is
learned (first writer wins); every decoded ARP message bumps the ARP-handled
counter. -/
def handle_arp (t : Translator) (msg : ArpMessage) : Translator :=
  let t1 :=
    if msg.op = arpOpRequest ∧ t.our_ip = some msg.target_ip then
      t.pushArpReply
        (build_arp_reply t.our_mac msg.target_ip msg.sender_mac msg.sender_ip)
    else if t.gateway_mac = none then
      { t with gateway_mac := some msg.sender_mac }
    else t
  { t1 with arp_handled := t1.arp_handled + 1 }

/-- Modelled from the spec: the three-way outcome of `ethernet_to_ip` (spec
sections 4.2 and 9): a forwarded IP payload, the "handled internally"
sentinel (ARP consumed, nothing to forward), or an error. An error carries
no output bytes: nothing is written to the caller's buffer. -/
inductive EthToIpResult where
  | forwarded (packet : List Nat)
  | handledInternally
  | err (e : TapTunError)
deriving DecidableEq, Repr

/-- FFI integer encoding of an ethernet_to_ip outcome, after taptun_ffi.h:
the payload length on success, 0 when handled internally, -1 on error, -2
when the output buffer is too small. -/
def EthToIpResult.ffiCode : EthToIpResult → Int
  | .forwarded p => Int.ofNat p.length
  | .handledInternally => 0
  | .err e => e.ffiCode

/-- Whether the outcome is a forwarded payload. -/
def EthToIpResult.isForwarded : EthToIpResult → Bool
  | .forwarded _ => true
  | _ => false

/-- Whether the outcome is an error. -/
def EthToIpResult.isErr : EthToIpResult → Bool
  | .err _ => true
  | _ => false

/-- Modelled from the spec: `ethernet_to_ip` (taptun_ethernet_to_ip in
taptun_ffi.h; spec section 4.2), absent from src/. Parses the Ethernet
header; ARP frames are decoded and consumed internally; IPv4/IPv6 frames have
their payload copied out whole — all-or-nothing against `out_capacity` — and
bump the L2-to-L3 counter; any other ethertype is an error. The caller's
output buffer is modelled by `out_capacity` and the returned payload. -/
def ethernet_to_ip (t : Translator) (eth_frame : List Nat)
    (out_capacity : Nat) : EthToIpResult × Translator :=
  match parse_ethernet eth_frame with
  | none => (.err .malformedFrame, t)
  | some h =>
    if h.ethertype = etherTypeArp then
      match parse_arp h.payload with
      | none => (.err .malformedArp, t)
      | some msg => (.handledInternally, handle_arp t msg)
    else if h.ethertype = etherTypeIPv4 ∨ h.ethertype = etherTypeIPv6 then
      if out_capacity < h.payload.length then (.err .bufferTooSmall, t)
      else (.forwarded h.payload, { t with l2_to_l3 := t.l2_to_l3 + 1 })
    else (.err .unknown, t)

/-- Modelled from the spec: the outcome of `ip_to_ethernet` (spec section
4.3): a built Ethernet frame or an error carrying no output bytes. -/
inductive IpToEthResult where
  | frame (f : List Nat)
  | err (e : TapTunError)
deriving DecidableEq, Repr

/-- Whether the outcome is a built frame. -/
def IpToEthResult.isFrame : IpToEthResult → Bool
  | .frame _ => true
  | _ => false

/-- FFI integer encoding of an ip_to_ethernet outcome, after taptun_ffi.h:
the frame length on success, -1 on error, -2 when the buffer is too small. -/
def IpToEthResult.ffiCode : IpToEthResult → Int
  | .frame f => Int.ofNat f.length
  | .err e => e.ffiCode

/-- Modelled from the spec: `ip_to_ethernet` (taptun_ip_to_ethernet in
taptun_ffi.h; spec section 4.3), absent from src/. Fails with
DeviceNotActive while `gateway_mac` is unset; infers the ethertype from the
IP version nibble (4 or 6, anything else MalformedFrame); checks the output
capacity before producing any byte; on success prepends the Ethernet header
and bumps the L3-to-L2 counter. -/
def ip_to_ethernet (t : Translator) (ip_packet : List Nat)
    (out_capacity : Nat) : IpToEthResult × Translator :=
  match t.gateway_mac with
  | none => (.err .deviceNotActive, t)
  | some gw =>
    match ip_packet with
    | [] => (.err .malformedFrame, t)
    | b :: _ =>
      if b / 16 = 4 ∨ b / 16 = 6 then
        let et := if b / 16 = 4 then etherTypeIPv4 else etherTypeIPv6
        if out_capacity < 14 + ip_packet.length then (.err .bufferTooSmall, t)
        else (.frame (build_ethernet_header gw t.our_mac et ++ ip_packet),
              { t with l3_to_l2 := t.l3_to_l2 + 1 })
      else (.err .malformedFrame, t)

/-- Modelled from the spec: the outcome of `pop_arp_reply`
(taptun_translator_pop_arp_reply in taptun_ffi.h): the oldest queued frame,
"nothing pending", or an error carrying no output bytes. -/
inductive PopArpResult where
  | frame (f : List Nat)
  | nothingPending
  | err (e : TapTunError)
deriving DecidableEq, Repr

/-- Modelled from the spec: `pop_arp_reply` (spec sections 4.4 and 6), absent
from src/. Removes and returns the oldest queued ARP reply frame; reports
nothing-pending on an empty queue; checks the output capacity before
producing any byte and leaves the queue intact on that error. -/
def pop_arp_reply (t : Translator) (out_capacity : Nat) :
    PopArpResult × Translator :=
  match t.arp_reply_queue with
  | [] => (.nothingPending, t)
  | f :: rest =>
    if out_capacity < f.length then (.err .bufferTooSmall, t)
    else (.frame f, { t with arp_reply_queue := rest })

/-- Modelled from the spec: `set_our_ip` (spec section 4.5) — caller
authoritative, always succeeds, overwrites any prior value. -/
def set_our_ip (t : Translator) (ip : IPv4) : Translator :=
  { t with our_ip := some ip }

/-- Modelled from the spec: `set_gateway_ip` (spec section 4.5) — caller
authoritative, always succeeds, overwrites any prior value. -/
def set_gateway_ip (t : Translator) (ip : IPv4) : Translator :=
  { t with gateway_ip := some ip }

/-- Modelled from the spec: the translator states reachable from construction
by the exposed operations (spec sections 3 and 6). -/
inductive Reachable : Translator → Prop where
  | init (mac : Mac) : Reachable (mkTranslator mac)
  | step_ethernet_to_ip (t : Translator) (frame : List Nat) (cap : Nat) :
      Reachable t → Reachable (ethernet_to_ip t frame cap).2
  | step_ip_to_ethernet (t : Translator) (pkt : List Nat) (cap : Nat) :
      Reachable t → Reachable (ip_to_ethernet t pkt cap).2
  | step_pop_arp_reply (t : Translator) (cap : Nat) :
      Reachable t → Reachable (pop_arp_reply t cap).2
  | step_set_our_ip (t : Translator) (ip : IPv4) :
      Reachable t → Reachable (set_our_ip t ip)
  | step_set_gateway_ip (t : Translator) (ip : IPv4) :
      Reachable t → Reachable (set_gateway_ip t ip)

/-- Error code ZigTapTunError_OutOfMemory from zigtaptun_android.h. -/
def ZigTapTunError_OutOfMemory : Int := -1

/-- Error code ZigTapTunError_InvalidParameter from zigtaptun_android.h. -/
def ZigTapTunError_InvalidParameter : Int := -2

/-- Error code ZigTapTunError_BufferTooSmall from zigtaptun_android.h. -/
def ZigTapTunError_BufferTooSmall : Int := -6

/-- The JNI device-create wrapper
Java_com_example_zigtaptun_ZigTapTunVpnService_zig_1taptun_1android_1create
from jni_wrapper.cpp. `fd` and `mtu` are the jint arguments; `native` stands
for the zig_taptun_android_create constructor (none = NULL handle). The
result pairs the returned jlong with the list of (fd, mtu) invocations the
wrapper made on the native constructor. -/
def jni_android_create (fd mtu : Int) (native : Int → Int → Option Nat) :
    Int × List (Int × Int) :=
  if fd < 0 then (0, [])
  else if mtu ≤ 0 ∨ mtu > 65535 then (0, [])
  else
    match native fd mtu with
    | none => (0, [(fd, mtu)])
    | some h => (Int.ofNat h, [(fd, mtu)])

/-- The JNI read wrapper
Java_com_example_zigtaptun_ZigTapTunVpnService_zig_1taptun_1android_1read
from jni_wrapper.cpp together with its validate_handle helper. `handle` is
the jlong (0 = NULL); `buffer` is the Java byte array modelled by its length
(none = null array); `buffer_size` is the requested jint size; `acquired`
models whether GetByteArrayElements succeeds; `native` stands for
zig_taptun_android_read applied to the requested size. The result pairs the
returned jint with whether the native read was invoked. -/
def jni_android_read (handle : Int) (buffer : Option Nat) (buffer_size : Int)
    (acquired : Bool) (native : Int → Int) : Int × Bool :=
  if handle = 0 then (ZigTapTunError_InvalidParameter, false)
  else
    match buffer with
    | none => (ZigTapTunError_InvalidParameter, false)
    | some java_buffer_size =>
      if buffer_size > (java_buffer_size : Int) then
        (ZigTapTunError_BufferTooSmall, false)
      else if !acquired then (ZigTapTunError_OutOfMemory, false)
      else (native buffer_size, true)

/-! ### Codec lemmas -/

/-- An Ethernet header serializes to exactly 14 bytes. -/
theorem build_ethernet_header_length (d s : Mac) (e : Nat) :
    (build_ethernet_header d s e).length = 14 := rfl

/-- A built ARP reply frame is exactly 42 bytes: 14-byte Ethernet header plus
28-byte ARP body. -/
theorem build_arp_reply_length (smac : Mac) (sip : IPv4) (tmac : Mac)
    (tip : IPv4) : (build_arp_reply smac sip tmac tip).length = 42 := rfl

/-- Parsing a built ARP reply recovers its Ethernet header: destination is the
target, source is the sender, ethertype is ARP. -/
theorem parse_ethernet_build_arp_reply (smac : Mac) (sip : IPv4) (tmac : Mac)
    (tip : IPv4) :
    parse_ethernet (build_arp_reply smac sip tmac tip) =
      some ⟨tmac, smac, etherTypeArp,
            (build_arp_reply smac sip tmac tip).drop 14⟩ := rfl

/-- Parsing the ARP body of a built ARP reply recovers the reply operation and
the four address fields. -/
theorem parse_arp_build_arp_reply (smac : Mac) (sip : IPv4) (tmac : Mac)
    (tip : IPv4) :
    parse_arp ((build_arp_reply smac sip tmac tip).drop 14) =
      some ⟨arpOpReply, smac, sip, tmac, tip⟩ := rfl

/-! ### State-transition lemmas -/

@[simp] theorem pushArpReply_our_mac (t : Translator) (f : List Nat) :
    (t.pushArpReply f).our_mac = t.our_mac := by
  unfold Translator.pushArpReply; split <;> rfl

@[simp] theorem pushArpReply_our_ip (t : Translator) (f : List Nat) :
    (t.pushArpReply f).our_ip = t.our_ip := by
  unfold Translator.pushArpReply; split <;> rfl

@[simp] theorem pushArpReply_gateway_mac (t : Translator) (f : List Nat) :
    (t.pushArpReply f).gateway_mac = t.gateway_mac := by
  unfold Translator.pushArpReply; split <;> rfl

@[simp] theorem pushArpReply_l2_to_l3 (t : Translator) (f : List Nat) :
    (t.pushArpReply f).l2_to_l3 = t.l2_to_l3 := by
  unfold Translator.pushArpReply; split <;> rfl

@[simp] theorem pushArpReply_l3_to_l2 (t : Translator) (f : List Nat) :
    (t.pushArpReply f).l3_to_l2 = t.l3_to_l2 := by
  unfold Translator.pushArpReply; split <;> rfl

@[simp] theorem pushArpReply_arp_handled (t : Translator) (f : List Nat) :
    (t.pushArpReply f).arp_handled = t.arp_handled := by
  unfold Translator.pushArpReply; split <;> rfl

@[simp] theorem handle_arp_arp_handled (t : Translator) (msg : ArpMessage) :
    (handle_arp t msg).arp_handled = t.arp_handled + 1 := by
  simp only [handle_arp]
  split
  · simp
  · split <;> simp

@[simp] theorem handle_arp_l2_to_l3 (t : Translator) (msg : ArpMessage) :
    (handle_arp t msg).l2_to_l3 = t.l2_to_l3 := by
  simp only [handle_arp]
  split
  · simp
  · split <;> simp

@[simp] theorem handle_arp_l3_to_l2 (t : Translator) (msg : ArpMessage) :
    (handle_arp t msg).l3_to_l2 = t.l3_to_l2 := by
  simp only [handle_arp]
  split
  · simp
  · split <;> simp

/-- ARP handling never overwrites a gateway MAC that is already set: learning
happens only while `gateway_mac` is unset. -/
theorem handle_arp_gateway_mac (t : Translator) (msg : ArpMessage) (m : Mac)
    (h : t.gateway_mac = some m) :
    (handle_arp t msg).gateway_mac = some m := by
  simp only [handle_arp]
  split
  · simpa using h
  · split
    · simp_all
    · simpa using h

/-- Every frame in the queue after ARP handling was already in it, or is a
built ARP reply of length 42. -/
theorem handle_arp_queue_mem (t : Translator) (msg : ArpMessage)
    (f : List Nat) (hf : f ∈ (handle_arp t msg).arp_reply_queue) :
    f ∈ t.arp_reply_queue ∨ f.length = 42 := by
  simp only [handle_arp] at hf
  split at hf
  · simp only [Translator.pushArpReply] at hf
    split at hf
    · simp only at hf
      rcases List.mem_append.mp hf with h | h
      · exact Or.inl h
      · simp only [List.mem_singleton] at h
        subst h
        exact Or.inr (build_arp_reply_length _ _ _ _)
    · exact Or.inl hf
  · split at hf
    · exact Or.inl hf
    · exact Or.inl hf

/-- Exhaustive case analysis of `ethernet_to_ip`: it returns an error leaving
the state unchanged, consumes an ARP message, or forwards the payload bumping
the L2-to-L3 counter. -/
theorem ethernet_to_ip_cases (t : Translator) (frame : List Nat) (cap : Nat) :
    (∃ e, ethernet_to_ip t frame cap = (.err e, t)) ∨
    (∃ msg, ethernet_to_ip t frame cap =
        (.handledInternally, handle_arp t msg)) ∨
    (∃ p, ethernet_to_ip t frame cap =
        (.forwarded p, { t with l2_to_l3 := t.l2_to_l3 + 1 })) := by
  unfold ethernet_to_ip
  cases parse_ethernet frame with
  | none => exact Or.inl ⟨_, rfl⟩
  | some hd =>
    by_cases h1 : hd.ethertype = etherTypeArp
    · simp only [if_pos h1]
      cases parse_arp hd.payload with
      | none => exact Or.inl ⟨_, rfl⟩
      | some msg => exact Or.inr (Or.inl ⟨msg, rfl⟩)
    · simp only [if_neg h1]
      by_cases h2 : hd.ethertype = etherTypeIPv4 ∨ hd.ethertype = etherTypeIPv6
      · simp only [if_pos h2]
        by_cases h3 : cap < hd.payload.length
        · simp only [if_pos h3]; exact Or.inl ⟨_, rfl⟩
        · simp only [if_neg h3]; exact Or.inr (Or.inr ⟨_, rfl⟩)
      · simp only [if_neg h2]; exact Or.inl ⟨_, rfl⟩

/-- Exhaustive case analysis of `ip_to_ethernet`: an error leaving the state
unchanged, or a built frame bumping the L3-to-L2 counter. -/
theorem ip_to_ethernet_cases (t : Translator) (pkt : List Nat) (cap : Nat) :
    (∃ e, ip_to_ethernet t pkt cap = (.err e, t)) ∨
    (∃ f, ip_to_ethernet t pkt cap =
        (.frame f, { t with l3_to_l2 := t.l3_to_l2 + 1 })) := by
  unfold ip_to_ethernet
  cases t.gateway_mac with
  | none => exact Or.inl ⟨_, rfl⟩
  | some gw =>
    cases pkt with
    | nil => exact Or.inl ⟨_, rfl⟩
    | cons b rest =>
      by_cases h1 : b / 16 = 4 ∨ b / 16 = 6
      · simp only [if_pos h1]
        by_cases h2 : cap < 14 + (b :: rest).length
        · simp only [if_pos h2]; exact Or.inl ⟨_, rfl⟩
        · simp only [if_neg h2]; exact Or.inr ⟨_, rfl⟩
      · simp only [if_neg h1]; exact Or.inl ⟨_, rfl⟩

/-- Exhaustive case analysis of `pop_arp_reply`: nothing pending or an error
leaves the state unchanged; a popped frame was the head of the queue. -/
theorem pop_arp_reply_cases (t : Translator) (cap : Nat) :
    (pop_arp_reply t cap = (.nothingPending, t)) ∨
    (∃ e, pop_arp_reply t cap = (.err e, t)) ∨
    (∃ f rest, t.arp_reply_queue = f :: rest ∧
      pop_arp_reply t cap = (.frame f, { t with arp_reply_queue := rest })) := by
  unfold pop_arp_reply
  cases hq : t.arp_reply_queue with
  | nil => exact Or.inl rfl
  | cons f rest =>
    by_cases h1 : cap < f.length
    · simp only [if_pos h1]; exact Or.inr (Or.inl ⟨_, rfl⟩)
    · simp only [if_neg h1]; exact Or.inr (Or.inr ⟨f, rest, rfl, rfl⟩)

/-- Reduction of `ethernet_to_ip` on an ARP frame that decodes: the message is
consumed by `handle_arp` and the call reports handled-internally. -/
theorem ethernet_to_ip_arp_eq (t : Translator) (frame : List Nat) (cap : Nat)
    (hd : EthFrame) (msg : ArpMessage)
    (hparse : parse_ethernet frame = some hd)
    (heth : hd.ethertype = etherTypeArp)
    (harp : parse_arp hd.payload = some msg) :
    ethernet_to_ip t frame cap = (.handledInternally, handle_arp t msg) := by
  unfold ethernet_to_ip
  rw [hparse]
  simp only [if_pos heth, harp]

/-- Reduction of `ethernet_to_ip` on an IPv4/IPv6 frame whose payload fits the
output capacity: the payload is forwarded and the L2-to-L3 counter bumped. -/
theorem ethernet_to_ip_ip_eq (t : Translator) (frame : List Nat) (cap : Nat)
    (hd : EthFrame)
    (hparse : parse_ethernet frame = some hd)
    (heth : hd.ethertype = etherTypeIPv4 ∨ hd.ethertype = etherTypeIPv6)
    (hcap : hd.payload.length ≤ cap) :
    ethernet_to_ip t frame cap =
      (.forwarded hd.payload, { t with l2_to_l3 := t.l2_to_l3 + 1 }) := by
  have hne : hd.ethertype ≠ etherTypeArp := by
    rcases heth with h | h <;> rw [h] <;> decide
  unfold ethernet_to_ip
  rw [hparse]
  simp only [if_neg hne, if_pos heth, if_neg (Nat.not_lt.mpr hcap)]

/-- Reduction of `ethernet_to_ip` on an IPv4/IPv6 frame whose payload exceeds
the output capacity: buffer-too-small, state unchanged, no bytes produced. -/
theorem ethernet_to_ip_too_small_eq (t : Translator) (frame : List Nat)
    (cap : Nat) (hd : EthFrame)
    (hparse : parse_ethernet frame = some hd)
    (heth : hd.ethertype = etherTypeIPv4 ∨ hd.ethertype = etherTypeIPv6)
    (hcap : cap < hd.payload.length) :
    ethernet_to_ip t frame cap = (.err .bufferTooSmall, t) := by
  have hne : hd.ethertype ≠ etherTypeArp := by
    rcases heth with h | h <;> rw [h] <;> decide
  unfold ethernet_to_ip
  rw [hparse]
  simp only [if_neg hne, if_pos heth, if_pos hcap]

/-- Reduction of `ip_to_ethernet` while the gateway MAC is unset: the
DeviceNotActive error, state unchanged, no bytes produced. -/
theorem ip_to_ethernet_no_gateway_eq (t : Translator) (pkt : List Nat)
    (cap : Nat) (h : t.gateway_mac = none) :
    ip_to_ethernet t pkt cap = (.err .deviceNotActive, t) := by
  unfold ip_to_ethernet
  rw [h]

/-- Reduction of `ip_to_ethernet` on an IP packet with a valid version nibble
that fits the output capacity: header prepended, L3-to-L2 counter bumped. -/
theorem ip_to_ethernet_ok_eq (t : Translator) (cap : Nat) (gw : Mac) (b : Nat)
    (rest : List Nat)
    (hgw : t.gateway_mac = some gw)
    (hb : b / 16 = 4 ∨ b / 16 = 6)
    (hcap : 14 + (b :: rest).length ≤ cap) :
    ip_to_ethernet t (b :: rest) cap =
      (.frame (build_ethernet_header gw t.our_mac
          (if b / 16 = 4 then etherTypeIPv4 else etherTypeIPv6) ++ (b :: rest)),
       { t with l3_to_l2 := t.l3_to_l2 + 1 }) := by
  unfold ip_to_ethernet
  rw [hgw]
  simp only [if_pos hb, if_neg (Nat.not_lt.mpr hcap)]

/-- Reduction of `ip_to_ethernet` on an IP packet with a valid version nibble
that exceeds the output capacity: buffer-too-small, state unchanged, no bytes
produced. -/
theorem ip_to_ethernet_too_small_eq (t : Translator) (cap : Nat) (gw : Mac)
    (b : Nat) (rest : List Nat)
    (hgw : t.gateway_mac = some gw)
    (hb : b / 16 = 4 ∨ b / 16 = 6)
    (hcap : cap < 14 + (b :: rest).length) :
    ip_to_ethernet t (b :: rest) cap = (.err .bufferTooSmall, t) := by
  unfold ip_to_ethernet
  rw [hgw]
  simp only [if_pos hb, if_pos hcap]

/-! ### Concrete test vectors, used by witnesses and counterexamples -/

/-- The spec's example interface MAC 02:00:00:00:00:01 (spec section 8). -/
def macA : Mac := ⟨2, 0, 0, 0, 0, 1⟩

/-- The spec's example interface IP 10.0.0.2 (spec section 8). -/
def ipA : IPv4 := ⟨10, 0, 0, 2⟩

/-- A peer MAC used as the ARP sender in the test vectors. -/
def macB : Mac := ⟨170, 187, 204, 0, 0, 1⟩

/-- The peer's IP used as the ARP sender IP in the test vectors. -/
def ipB : IPv4 := ⟨10, 0, 0, 1⟩

/-- A 42-byte broadcast ARP request from (macB, ipB) asking for 10.0.0.2. -/
def reqFrame : List Nat :=
  [255, 255, 255, 255, 255, 255] ++ [170, 187, 204, 0, 0, 1] ++ [8, 6] ++
  [0, 1, 8, 0, 6, 4, 0, 1] ++ [170, 187, 204, 0, 0, 1] ++ [10, 0, 0, 1] ++
  [0, 0, 0, 0, 0, 0] ++ [10, 0, 0, 2]

/-- The parsed Ethernet view of `reqFrame`. -/
def reqHdr : EthFrame := ⟨⟨255, 255, 255, 255, 255, 255⟩, macB, etherTypeArp,
  reqFrame.drop 14⟩

/-- The decoded ARP view of `reqFrame`. -/
def reqMsg : ArpMessage := ⟨arpOpRequest, macB, ipB, ⟨0, 0, 0, 0, 0, 0⟩, ipA⟩

/-- A translator as in the spec's end-to-end scenario: created with macA, our
IP set to ipA. -/
def tInit : Translator := set_our_ip (mkTranslator macA) ipA

/-- `tInit` after consuming the ARP request `reqFrame`. -/
def tAfterReq : Translator := (ethernet_to_ip tInit reqFrame 100).2

/-- The ARP reply `tAfterReq` has queued. -/
def replyAB : List Nat := build_arp_reply macA ipA macB ipB

/-- A 14-byte Ethernet frame with the IPv4 ethertype and an empty payload. -/
def emptyIpFrame : List Nat :=
  [255, 255, 255, 255, 255, 255] ++ [170, 187, 204, 0, 0, 1] ++ [8, 0]

/-- A 20-byte IPv4 packet (version nibble 4). -/
def ipPayloadC : List Nat :=
  [69, 0, 0, 20] ++ List.replicate 16 7

/-- An Ethernet frame carrying `ipPayloadC` with the IPv4 ethertype. -/
def ipv4FrameC : List Nat :=
  [255, 255, 255, 255, 255, 255] ++ [170, 187, 204, 0, 0, 1] ++ [8, 0] ++
  ipPayloadC

/-- The parsed Ethernet view of `ipv4FrameC`. -/
def ipv4HdrC : EthFrame := ⟨⟨255, 255, 255, 255, 255, 255⟩, macB,
  etherTypeIPv4, ipPayloadC⟩

/-- A translator with our IP set and the gateway MAC already learned. -/
def tGw : Translator := ⟨macA, some ipA, some macB, none, 0, 0, 0, []⟩

/-- A placeholder 42-byte frame used to fill the reply queue. -/
def zeroFrame42 : List Nat := List.replicate 42 0

/-- A translator whose ARP reply queue is at its capacity bound. -/
def tQueueFull : Translator :=
  ⟨macA, some ipA, none, none, 0, 0, 0, List.replicate arpQueueCapacity zeroFrame42⟩

/-- A concrete stand-in for the native Android constructor. -/
def nativeCreateC : Int → Int → Option Nat := fun _ _ => some 5

/-- A concrete stand-in for the native Android read. -/
def nativeReadC : Int → Int := fun _ => 7

/-! ### Claim theorems -/

/-- C4: once `gateway_mac` holds a value, no `ethernet_to_ip` call on any
frame (ARP or otherwise, from any sender) changes it, and neither does any
other exposed operation — `ip_to_ethernet`, `pop_arp_reply`, `set_our_ip` or
`set_gateway_ip`. Learning is first-writer-wins: it only happens while the
field is unset, and the interface exposes no gateway-MAC override, so an
already-set value persists. -/
theorem gateway_mac_first_writer_wins (t : Translator) (m : Mac)
    (frame pkt : List Nat) (cap1 cap2 cap3 : Nat) (ip ip2 : IPv4)
    (h : t.gateway_mac = some m) :
    (ethernet_to_ip t frame cap1).2.gateway_mac = some m ∧
    (ip_to_ethernet t pkt cap2).2.gateway_mac = some m ∧
    (pop_arp_reply t cap3).2.gateway_mac = some m ∧
    (set_our_ip t ip).gateway_mac = some m ∧
    (set_gateway_ip t ip2).gateway_mac = some m := by
  refine ⟨?_, ?_, ?_, ?_, ?_⟩
  · rcases ethernet_to_ip_cases t frame cap1 with ⟨e, heq⟩ | ⟨msg, heq⟩ | ⟨p, heq⟩ <;>
      rw [heq]
    · exact h
    · exact handle_arp_gateway_mac t msg m h
    · exact h
  · rcases ip_to_ethernet_cases t pkt cap2 with ⟨e, heq⟩ | ⟨f, heq⟩ <;> rw [heq] <;>
      exact h
  · rcases pop_arp_reply_cases t cap3 with heq | ⟨e, heq⟩ | ⟨f, rest, hq, heq⟩ <;>
      rw [heq] <;> exact h
  · exact h
  · exact h

/-- Witness for C4 at a concrete learned state and a concrete ARP frame from a
different sender. -/
theorem gateway_mac_first_writer_wins_witness :
    tGw.gateway_mac = some macB ∧
    (ethernet_to_ip tGw reqFrame 100).2.gateway_mac = some macB :=
  ⟨rfl,
   (gateway_mac_first_writer_wins tGw macB reqFrame ipPayloadC 100 100 100
      ipA ipB rfl).1⟩

/-- C5: while `gateway_mac` is unset, every `ip_to_ethernet` call fails with
the DeviceNotActive error (FFI class -1), produces no frame (the error result
carries no output bytes), and returns the translator state unchanged, so the
caller can retry after a learning event. -/
theorem ip_to_ethernet_requires_gateway (t : Translator) (pkt : List Nat)
    (cap : Nat) (h : t.gateway_mac = none) :
    ip_to_ethernet t pkt cap = (.err .deviceNotActive, t) ∧
    TapTunError.deviceNotActive.ffiCode = -1 :=
  ⟨ip_to_ethernet_no_gateway_eq t pkt cap h, rfl⟩

/-- Witness for C5 at a freshly configured translator, which has no gateway
MAC yet. -/
theorem ip_to_ethernet_requires_gateway_witness :
    tInit.gateway_mac = none ∧
    (ip_to_ethernet tInit ipPayloadC 100 = (.err .deviceNotActive, tInit) ∧
     TapTunError.deviceNotActive.ffiCode = -1) :=
  ⟨rfl, ip_to_ethernet_requires_gateway tInit ipPayloadC 100 rfl⟩

/-- C8: each statistics counter changes by exactly the delta of the operation
performed — plus one on the corresponding successful operation (a forwarded
payload for L2-to-L3, a built frame for L3-to-L2, a consumed ARP message for
ARP-handled) and zero otherwise; in particular every error return leaves all
three counters unchanged, and no operation (including `pop_arp_reply` and the
setters) ever decreases any counter. -/
theorem stats_counters_exact (t : Translator) (frame pkt : List Nat)
    (cap1 cap2 cap3 : Nat) (ip ip2 : IPv4) :
    ((ethernet_to_ip t frame cap1).2.l2_to_l3 =
      t.l2_to_l3 + (if (ethernet_to_ip t frame cap1).1.isForwarded then 1 else 0)) ∧
    ((ethernet_to_ip t frame cap1).2.arp_handled =
      t.arp_handled +
        (if (ethernet_to_ip t frame cap1).1 = .handledInternally then 1 else 0)) ∧
    ((ethernet_to_ip t frame cap1).2.l3_to_l2 = t.l3_to_l2) ∧
    ((ip_to_ethernet t pkt cap2).2.l3_to_l2 =
      t.l3_to_l2 + (if (ip_to_ethernet t pkt cap2).1.isFrame then 1 else 0)) ∧
    ((ip_to_ethernet t pkt cap2).2.l2_to_l3 = t.l2_to_l3) ∧
    ((ip_to_ethernet t pkt cap2).2.arp_handled = t.arp_handled) ∧
    ((pop_arp_reply t cap3).2.l2_to_l3 = t.l2_to_l3 ∧
     (pop_arp_reply t cap3).2.l3_to_l2 = t.l3_to_l2 ∧
     (pop_arp_reply t cap3).2.arp_handled = t.arp_handled) ∧
    ((set_our_ip t ip).l2_to_l3 = t.l2_to_l3 ∧
     (set_our_ip t ip).l3_to_l2 = t.l3_to_l2 ∧
     (set_our_ip t ip).arp_handled = t.arp_handled) ∧
    ((set_gateway_ip t ip2).l2_to_l3 = t.l2_to_l3 ∧
     (set_gateway_ip t ip2).l3_to_l2 = t.l3_to_l2 ∧
     (set_gateway_ip t ip2).arp_handled = t.arp_handled) := by
  refine ⟨?_, ?_, ?_, ?_, ?_, ?_, ⟨?_, ?_, ?_⟩, ⟨rfl, rfl, rfl⟩, ⟨rfl, rfl, rfl⟩⟩
  · rcases ethernet_to_ip_cases t frame cap1 with ⟨e, heq⟩ | ⟨msg, heq⟩ | ⟨p, heq⟩ <;>
      rw [heq] <;> simp [EthToIpResult.isForwarded]
  · rcases ethernet_to_ip_cases t frame cap1 with ⟨e, heq⟩ | ⟨msg, heq⟩ | ⟨p, heq⟩ <;>
      rw [heq] <;> simp
  · rcases ethernet_to_ip_cases t frame cap1 with ⟨e, heq⟩ | ⟨msg, heq⟩ | ⟨p, heq⟩
    · rw [heq]
    · rw [heq]; simp
    · rw [heq]
  · rcases ip_to_ethernet_cases t pkt cap2 with ⟨e, heq⟩ | ⟨f, heq⟩ <;>
      rw [heq] <;> simp [IpToEthResult.isFrame]
  · rcases ip_to_ethernet_cases t pkt cap2 with ⟨e, heq⟩ | ⟨f, heq⟩ <;> rw [heq]
  · rcases ip_to_ethernet_cases t pkt cap2 with ⟨e, heq⟩ | ⟨f, heq⟩ <;> rw [heq]
  · rcases pop_arp_reply_cases t cap3 with heq | ⟨e, heq⟩ | ⟨f, rest, hq, heq⟩ <;>
      rw [heq]
  · rcases pop_arp_reply_cases t cap3 with heq | ⟨e, heq⟩ | ⟨f, rest, hq, heq⟩ <;>
      rw [heq]
  · rcases pop_arp_reply_cases t cap3 with heq | ⟨e, heq⟩ | ⟨f, rest, hq, heq⟩ <;>
      rw [heq]

/-- C6: in both translation directions, whenever the required output size
exceeds the caller's capacity the call returns BufferTooSmall (FFI code -2)
with the translator state unchanged and no output bytes produced (the error
result carries none): capacity is validated before anything is written. -/
theorem no_partial_writes (t : Translator) (frame : List Nat) (cap : Nat)
    (hd : EthFrame) (pkt : List Nat) (b : Nat) (rest : List Nat) (cap2 : Nat)
    (gw : Mac) :
    (parse_ethernet frame = some hd →
     hd.ethertype = etherTypeIPv4 ∨ hd.ethertype = etherTypeIPv6 →
     cap < hd.payload.length →
     ethernet_to_ip t frame cap = (.err .bufferTooSmall, t)) ∧
    (t.gateway_mac = some gw → pkt = b :: rest → b / 16 = 4 ∨ b / 16 = 6 →
     cap2 < 14 + pkt.length →
     ip_to_ethernet t pkt cap2 = (.err .bufferTooSmall, t)) ∧
    TapTunError.bufferTooSmall.ffiCode = -2 := by
  refine ⟨?_, ?_, rfl⟩
  · intro hparse heth hcap
    exact ethernet_to_ip_too_small_eq t frame cap hd hparse heth hcap
  · intro hgw hpkt hb hcap
    subst hpkt
    exact ip_to_ethernet_too_small_eq t cap2 gw b rest hgw hb hcap

/-- Witness for C6: a 20-byte IPv4 payload against a 5-byte capacity on the
inbound side, and against a 10-byte capacity on the outbound side. -/
theorem no_partial_writes_witness :
    (parse_ethernet ipv4FrameC = some ipv4HdrC ∧
     ipv4HdrC.ethertype = etherTypeIPv4 ∧
     5 < ipv4HdrC.payload.length ∧
     tGw.gateway_mac = some macB ∧
     10 < 14 + ipPayloadC.length) ∧
    (ethernet_to_ip tGw ipv4FrameC 5 = (.err .bufferTooSmall, tGw) ∧
     ip_to_ethernet tGw ipPayloadC 10 = (.err .bufferTooSmall, tGw)) :=
  ⟨by decide,
   (no_partial_writes tGw ipv4FrameC 5 ipv4HdrC ipPayloadC 69
      ([0, 0, 20] ++ List.replicate 16 7) 10 macB).1 (by decide)
      (Or.inl (by decide)) (by decide),
   ((no_partial_writes tGw ipv4FrameC 5 ipv4HdrC ipPayloadC 69
      ([0, 0, 20] ++ List.replicate 16 7) 10 macB).2).1 rfl (by decide)
      (Or.inl (by decide)) (by decide)⟩

/-- C2: on a valid Ethernet frame with the IPv4 or IPv6 ethertype whose
payload is an IP packet (version nibble 4 or 6), `ethernet_to_ip` forwards
the payload, and `ip_to_ethernet` on that payload in the resulting state
(gateway MAC set, capacities sufficient) builds a frame whose IP payload —
everything after the 14-byte Ethernet header — is byte-identical to the
payload of the original frame. -/
theorem round_trip_payload (t : Translator) (frame : List Nat)
    (hd : EthFrame) (cap1 cap2 : Nat) (gw : Mac) (b : Nat) (rest : List Nat)
    (hparse : parse_ethernet frame = some hd)
    (heth : hd.ethertype = etherTypeIPv4 ∨ hd.ethertype = etherTypeIPv6)
    (hpay : hd.payload = b :: rest)
    (hb : b / 16 = 4 ∨ b / 16 = 6)
    (hgw : t.gateway_mac = some gw)
    (hcap1 : hd.payload.length ≤ cap1)
    (hcap2 : 14 + hd.payload.length ≤ cap2) :
    (ethernet_to_ip t frame cap1).1 = .forwarded hd.payload ∧
    ∃ f, (ip_to_ethernet (ethernet_to_ip t frame cap1).2 hd.payload cap2).1 =
      .frame f ∧ f.drop 14 = hd.payload := by
  have h1 := ethernet_to_ip_ip_eq t frame cap1 hd hparse heth hcap1
  rw [h1]
  refine ⟨rfl, ?_⟩
  rw [hpay] at hcap2 ⊢
  have hgw1 : ({ t with l2_to_l3 := t.l2_to_l3 + 1 } : Translator).gateway_mac
      = some gw := hgw
  have h2 := ip_to_ethernet_ok_eq { t with l2_to_l3 := t.l2_to_l3 + 1 } cap2
    gw b rest hgw1 hb hcap2
  refine ⟨build_ethernet_header gw t.our_mac
    (if b / 16 = 4 then etherTypeIPv4 else etherTypeIPv6) ++ (b :: rest),
    ?_, ?_⟩
  · rw [h2]
  · have hdl := List.drop_left
      (build_ethernet_header gw t.our_mac
        (if b / 16 = 4 then etherTypeIPv4 else etherTypeIPv6)) (b :: rest)
    rw [build_ethernet_header_length] at hdl
    exact hdl

/-- Witness for C2 on a concrete 20-byte IPv4 payload with the gateway MAC
learned. -/
theorem round_trip_payload_witness :
    (parse_ethernet ipv4FrameC = some ipv4HdrC ∧
     ipv4HdrC.ethertype = etherTypeIPv4 ∧
     ipv4HdrC.payload = 69 :: ([0, 0, 20] ++ List.replicate 16 7) ∧
     69 / 16 = 4 ∧
     tGw.gateway_mac = some macB ∧
     ipv4HdrC.payload.length ≤ 50 ∧
     14 + ipv4HdrC.payload.length ≤ 50) ∧
    ((ethernet_to_ip tGw ipv4FrameC 50).1 = .forwarded ipv4HdrC.payload ∧
     ∃ f, (ip_to_ethernet (ethernet_to_ip tGw ipv4FrameC 50).2
        ipv4HdrC.payload 50).1 = .frame f ∧ f.drop 14 = ipv4HdrC.payload) :=
  ⟨by decide,
   round_trip_payload tGw ipv4FrameC ipv4HdrC 50 50 macB 69
     ([0, 0, 20] ++ List.replicate 16 7) (by decide) (Or.inl (by decide))
     (by decide) (Or.inl (by decide)) rfl (by decide) (by decide)⟩

/-- C1 counterexample: with the ARP reply queue at its capacity bound, an ARP
request targeting the configured `our_ip` is still answered handled-internally
but NO reply is enqueued — the queue is unchanged — refuting the claim that
every such request enqueues exactly one reply (the spec's documented
backpressure policy drops the newest reply, sections 4.2 and 4.4). -/
theorem arp_reply_dropped_when_queue_full :
    parse_ethernet reqFrame = some reqHdr ∧
    reqHdr.ethertype = etherTypeArp ∧
    parse_arp reqHdr.payload = some reqMsg ∧
    reqMsg.op = arpOpRequest ∧
    tQueueFull.our_ip = some ipA ∧
    reqMsg.target_ip = ipA ∧
    tQueueFull.arp_reply_queue.length = arpQueueCapacity ∧
    (ethernet_to_ip tQueueFull reqFrame 100).1 = .handledInternally ∧
    (ethernet_to_ip tQueueFull reqFrame 100).2.arp_reply_queue =
      tQueueFull.arp_reply_queue ∧
    (ethernet_to_ip tQueueFull reqFrame 100).2.arp_handled =
      tQueueFull.arp_handled + 1 := by decide

/-- C1 (amended): for every Ethernet frame that decodes as an ARP request
whose target IP equals the configured `our_ip`, PROVIDED the reply queue is
below its capacity bound, `ethernet_to_ip` enqueues exactly one well-formed
ARP reply — sender fields (`our_mac`, `our_ip`), target fields the request's
(sender_mac, sender_ip) — increments the ARP-handled counter by one and
returns handled-internally (FFI value 0); at capacity the reply is silently
dropped while the counter and result are unchanged. -/
theorem arp_request_generates_reply (t : Translator) (frame : List Nat)
    (cap : Nat) (hd : EthFrame) (msg : ArpMessage) (ip : IPv4)
    (hparse : parse_ethernet frame = some hd)
    (heth : hd.ethertype = etherTypeArp)
    (harp : parse_arp hd.payload = some msg)
    (hop : msg.op = arpOpRequest)
    (hip : t.our_ip = some ip)
    (htip : msg.target_ip = ip)
    (hroom : t.arp_reply_queue.length < arpQueueCapacity) :
    (ethernet_to_ip t frame cap).1 = .handledInternally ∧
    ((ethernet_to_ip t frame cap).1).ffiCode = 0 ∧
    (ethernet_to_ip t frame cap).2.arp_reply_queue =
      t.arp_reply_queue ++
        [build_arp_reply t.our_mac ip msg.sender_mac msg.sender_ip] ∧
    (ethernet_to_ip t frame cap).2.arp_handled = t.arp_handled + 1 ∧
    parse_ethernet (build_arp_reply t.our_mac ip msg.sender_mac msg.sender_ip) =
      some ⟨msg.sender_mac, t.our_mac, etherTypeArp,
            (build_arp_reply t.our_mac ip msg.sender_mac msg.sender_ip).drop 14⟩ ∧
    parse_arp ((build_arp_reply t.our_mac ip msg.sender_mac msg.sender_ip).drop 14) =
      some ⟨arpOpReply, t.our_mac, ip, msg.sender_mac, msg.sender_ip⟩ := by
  subst htip
  have he := ethernet_to_ip_arp_eq t frame cap hd msg hparse heth harp
  have hcond : msg.op = arpOpRequest ∧ t.our_ip = some msg.target_ip :=
    ⟨hop, hip⟩
  have hqueue : (handle_arp t msg).arp_reply_queue =
      t.arp_reply_queue ++
        [build_arp_reply t.our_mac msg.target_ip msg.sender_mac msg.sender_ip] := by
    simp only [handle_arp, if_pos hcond, Translator.pushArpReply, if_pos hroom]
  rw [he]
  exact ⟨rfl, rfl, hqueue, handle_arp_arp_handled t msg,
    parse_ethernet_build_arp_reply _ _ _ _, parse_arp_build_arp_reply _ _ _ _⟩

/-- Witness for C1 (amended) at the spec's end-to-end scenario: fresh
translator with `our_ip = 10.0.0.2`, fed the concrete ARP request. -/
theorem arp_request_generates_reply_witness :
    (parse_ethernet reqFrame = some reqHdr ∧
     reqHdr.ethertype = etherTypeArp ∧
     parse_arp reqHdr.payload = some reqMsg ∧
     reqMsg.op = arpOpRequest ∧
     tInit.our_ip = some ipA ∧
     reqMsg.target_ip = ipA ∧
     tInit.arp_reply_queue.length < arpQueueCapacity) ∧
    ((ethernet_to_ip tInit reqFrame 100).1 = .handledInternally ∧
     ((ethernet_to_ip tInit reqFrame 100).1).ffiCode = 0 ∧
     (ethernet_to_ip tInit reqFrame 100).2.arp_reply_queue =
       tInit.arp_reply_queue ++
         [build_arp_reply tInit.our_mac ipA reqMsg.sender_mac reqMsg.sender_ip] ∧
     (ethernet_to_ip tInit reqFrame 100).2.arp_handled =
       tInit.arp_handled + 1 ∧
     parse_ethernet
        (build_arp_reply tInit.our_mac ipA reqMsg.sender_mac reqMsg.sender_ip) =
       some ⟨reqMsg.sender_mac, tInit.our_mac, etherTypeArp,
         (build_arp_reply tInit.our_mac ipA reqMsg.sender_mac
            reqMsg.sender_ip).drop 14⟩ ∧
     parse_arp ((build_arp_reply tInit.our_mac ipA reqMsg.sender_mac
          reqMsg.sender_ip).drop 14) =
       some ⟨arpOpReply, tInit.our_mac, ipA, reqMsg.sender_mac,
         reqMsg.sender_ip⟩) :=
  ⟨by decide,
   arp_request_generates_reply tInit reqFrame 100 reqHdr reqMsg ipA
     (by decide) (by decide) (by decide) (by decide) (by decide) (by decide)
     (by decide)⟩

/-- C3 counterexample: a 14-byte Ethernet frame with the IPv4 ethertype and
an empty payload is successfully forwarded, yet its FFI return value is 0 —
exactly the encoding of handled-internally — so the three outcomes are NOT
mutually distinguishable by the caller for every frame: the claim's inclusion
of the empty-payload frame fails. -/
theorem ffi_zero_ambiguous_on_empty_payload :
    (ethernet_to_ip tInit emptyIpFrame 100).1 = .forwarded [] ∧
    (ethernet_to_ip tInit emptyIpFrame 100).1 ≠ .handledInternally ∧
    EthToIpResult.ffiCode (ethernet_to_ip tInit emptyIpFrame 100).1 = 0 ∧
    EthToIpResult.ffiCode .handledInternally = 0 := by decide

/-- C3 (amended): for every frame, in the FFI encoding of the
`ethernet_to_ip` outcome, errors are exactly the negative values,
handled-internally is encoded 0, a forwarded payload is encoded by its
length, and a positive value always identifies a forwarded non-empty
payload; the value 0 however does not separate handled-internally from a
forwarded EMPTY payload, so full three-way distinguishability holds only for
frames whose IP payload is non-empty. -/
theorem ffi_encoding_distinguishes (t : Translator) (frame : List Nat)
    (cap : Nat) :
    ((ethernet_to_ip t frame cap).1.isErr = true ↔
      ((ethernet_to_ip t frame cap).1).ffiCode < 0) ∧
    ((ethernet_to_ip t frame cap).1 = .handledInternally →
      ((ethernet_to_ip t frame cap).1).ffiCode = 0) ∧
    (∀ p, (ethernet_to_ip t frame cap).1 = .forwarded p →
      ((ethernet_to_ip t frame cap).1).ffiCode = Int.ofNat p.length) ∧
    (0 < ((ethernet_to_ip t frame cap).1).ffiCode →
      ∃ p, (ethernet_to_ip t frame cap).1 = .forwarded p ∧ p ≠ []) := by
  cases hr : (ethernet_to_ip t frame cap).1 with
  | forwarded p =>
    refine ⟨?_, by simp, ?_, ?_⟩
    · simp only [EthToIpResult.isErr, EthToIpResult.ffiCode]
      constructor
      · intro h; cases h
      · intro h; exact absurd h (not_lt.mpr (Int.ofNat_nonneg p.length))
    · intro q hq
      have : p = q := by injection hq
      subst this
      rfl
    · intro hpos
      refine ⟨p, rfl, ?_⟩
      intro hnil
      subst hnil
      exact absurd hpos (by decide)
  | handledInternally =>
    exact ⟨by decide, fun _ => rfl, by simp, fun hpos => absurd hpos (by decide)⟩
  | err e =>
    refine ⟨?_, by simp, by simp, ?_⟩
    · cases e <;> decide
    · intro hpos
      exfalso
      cases e <;> exact absurd hpos (by decide)

/-- Witness for C3 (amended): the handled-internally outcome of the concrete
ARP request is encoded as FFI value 0. -/
theorem ffi_encoding_distinguishes_witness :
    (ethernet_to_ip tInit reqFrame 100).1 = .handledInternally ∧
    EthToIpResult.ffiCode (ethernet_to_ip tInit reqFrame 100).1 = 0 :=
  ⟨by decide, (ffi_encoding_distinguishes tInit reqFrame 100).2.1 (by decide)⟩

/-- Every ARP reply frame sitting in the queue of a reachable translator
state is exactly 42 bytes, since only `build_arp_reply` outputs are ever
enqueued. -/
theorem reachable_queue_frames_42 (t : Translator) (h : Reachable t) :
    ∀ f ∈ t.arp_reply_queue, f.length = 42 := by
  induction h with
  | init mac => intro f hf; simp [mkTranslator] at hf
  | step_ethernet_to_ip t frame cap ht ih =>
    intro f hf
    rcases ethernet_to_ip_cases t frame cap with ⟨e, heq⟩ | ⟨msg, heq⟩ | ⟨p, heq⟩ <;>
      rw [heq] at hf
    · exact ih f hf
    · rcases handle_arp_queue_mem t msg f hf with h' | h'
      · exact ih f h'
      · exact h'
    · exact ih f hf
  | step_ip_to_ethernet t pkt cap ht ih =>
    intro f hf
    rcases ip_to_ethernet_cases t pkt cap with ⟨e, heq⟩ | ⟨fr, heq⟩ <;>
      rw [heq] at hf <;> exact ih f hf
  | step_pop_arp_reply t cap ht ih =>
    intro f hf
    rcases pop_arp_reply_cases t cap with heq | ⟨e, heq⟩ | ⟨g, rest, hq, heq⟩ <;>
      rw [heq] at hf
    · exact ih f hf
    · exact ih f hf
    · exact ih f (by rw [hq]; exact List.mem_cons_of_mem g hf)
  | step_set_our_ip t ip ht ih => intro f hf; exact ih f hf
  | step_set_gateway_ip t ip ht ih => intro f hf; exact ih f hf

/-- C7: every ARP reply frame generated by the translator and returned by
`pop_arp_reply` — from any state reachable by the exposed operations — is
exactly the minimum valid Ethernet+ARP size of 42 bytes (14-byte Ethernet
header plus 28-byte ARP body), with no padding. -/
theorem pop_arp_reply_frame_is_42_bytes (t : Translator) (cap : Nat)
    (f : List Nat) (hreach : Reachable t)
    (hpop : (pop_arp_reply t cap).1 = .frame f) :
    f.length = 42 := by
  rcases pop_arp_reply_cases t cap with heq | ⟨e, heq⟩ | ⟨g, rest, hq, heq⟩ <;>
    rw [heq] at hpop
  · simp at hpop
  · simp at hpop
  · have hpop' : PopArpResult.frame g = .frame f := hpop
    injection hpop' with h
    subst h
    exact reachable_queue_frames_42 t hreach g
      (by rw [hq]; exact List.mem_cons_self g rest)

/-- Witness for C7: the spec's end-to-end scenario — after feeding the ARP
request, `pop_arp_reply` yields the generated reply, which is 42 bytes. -/
theorem pop_arp_reply_frame_is_42_bytes_witness :
    (pop_arp_reply tAfterReq 100).1 = .frame replyAB ∧ replyAB.length = 42 :=
  ⟨by decide,
   pop_arp_reply_frame_is_42_bytes tAfterReq 100 replyAB
     (Reachable.step_ethernet_to_ip tInit reqFrame 100
       (Reachable.step_set_our_ip (mkTranslator macA) ipA
         (Reachable.init macA)))
     (by decide)⟩

/-- C9: the JNI device-create wrapper returns the null handle 0 without ever
invoking the native constructor when fd < 0, mtu <= 0 or mtu > 65535, and for
fd >= 0 with 0 < mtu <= 65535 it passes exactly (fd, mtu) to the native
constructor. -/
theorem jni_create_validates_fd_mtu (fd mtu : Int)
    (native : Int → Int → Option Nat) :
    ((fd < 0 ∨ mtu ≤ 0 ∨ 65535 < mtu) →
      jni_android_create fd mtu native = (0, [])) ∧
    (0 ≤ fd → 0 < mtu → mtu ≤ 65535 →
      (jni_android_create fd mtu native).2 = [(fd, mtu)]) := by
  constructor
  · intro h
    unfold jni_android_create
    by_cases hfd : fd < 0
    · rw [if_pos hfd]
    · rw [if_neg hfd]
      have hmtu : mtu ≤ 0 ∨ mtu > 65535 := by
        rcases h with h | h | h
        · exact absurd h hfd
        · exact Or.inl h
        · exact Or.inr h
      rw [if_pos hmtu]
  · intro h1 h2 h3
    unfold jni_android_create
    rw [if_neg (by omega), if_neg (by omega)]
    cases native fd mtu <;> rfl

/-- Witness for C9: fd = -1 is rejected with the null handle and no native
call; fd = 3, mtu = 1500 is passed through to the native constructor. -/
theorem jni_create_validates_fd_mtu_witness :
    ((-1 : Int) < 0 ∧ (0 : Int) ≤ 3 ∧ (0 : Int) < 1500 ∧ (1500 : Int) ≤ 65535) ∧
    jni_android_create (-1) 1500 nativeCreateC = (0, []) ∧
    (jni_android_create 3 1500 nativeCreateC).2 = [(3, 1500)] :=
  ⟨by decide,
   (jni_create_validates_fd_mtu (-1) 1500 nativeCreateC).1 (Or.inl (by decide)),
   (jni_create_validates_fd_mtu 3 1500 nativeCreateC).2 (by decide) (by decide)
     (by decide)⟩

/-- C10: the JNI read wrapper returns InvalidParameter (-2) for a null handle
or null buffer, and BufferTooSmall (-6) whenever the requested buffer_size
exceeds the Java array's length — in every such case without invoking the
native device read, so the native layer can never write past the end of the
Java-owned array. -/
theorem jni_read_validates_buffer (handle : Int) (buffer : Option Nat)
    (bsize : Int) (acq : Bool) (native : Int → Int) :
    ((handle = 0 ∨ buffer = none) →
      jni_android_read handle buffer bsize acq native =
        (ZigTapTunError_InvalidParameter, false)) ∧
    (∀ len, handle ≠ 0 → buffer = some len → (len : Int) < bsize →
      jni_android_read handle buffer bsize acq native =
        (ZigTapTunError_BufferTooSmall, false)) := by
  constructor
  · intro h
    rcases h with h | h
    · subst h
      unfold jni_android_read
      rw [if_pos rfl]
    · subst h
      unfold jni_android_read
      by_cases hh : handle = 0
      · rw [if_pos hh]
      · rw [if_neg hh]
  · intro len hh hb hlt
    subst hb
    unfold jni_android_read
    rw [if_neg hh]
    simp only
    rw [if_pos hlt]

/-- Witness for C10: a null handle is rejected with InvalidParameter; a
request of 200 bytes against a 100-byte Java array is rejected with
BufferTooSmall, the native read uninvoked in both cases. -/
theorem jni_read_validates_buffer_witness :
    ((7 : Int) ≠ 0 ∧ (100 : Int) < 200) ∧
    jni_android_read 0 (some 100) 50 true nativeReadC =
      (ZigTapTunError_InvalidParameter, false) ∧
    jni_android_read 7 (some 100) 200 true nativeReadC =
      (ZigTapTunError_BufferTooSmall, false) :=
  ⟨by decide,
   (jni_read_validates_buffer 0 (some 100) 50 true nativeReadC).1
     (Or.inl rfl),
   (jni_read_validates_buffer 7 (some 100) 200 true nativeReadC).2 100
     (by decide) rfl (by decide)⟩

end TapTun
